import Mathlib

/-!
Shallow embedding of the Aspia peer-authentication core, checked against its
natural-language specification.

Source files embedded here:
* `source/peer/server_authenticator.h` — the `InternalState` enumeration and
  the configuration surface of `ServerAuthenticator`.
* `source/protocol/authorization.pb.cc` — the generated authorization wire
  messages (`Request`, `Response`, `Result`), their field dispatch tables,
  enum validity predicates and serializers.
* `source/base/logging.cc` — `shouldCreateLogMessage` and the severity scale.
* `source/router/manager/user_dialog.cc` — the user-management dialog's
  initialization and OK-button logic.

The implementation files `peer/server_authenticator.cc` and `net/user.cc` are
not part of the repository snapshot; the definitions that stand in for them
are modelled from the specification and carry a doc comment saying so.
-/

namespace Aspia

/-! ## net::User (net/user.cc is not in the snapshot) -/

namespace net

/-- Maximum password length referenced by the dialog
(`net::User::kMaxPasswordLength`); spec §3: "at most 64 code points". -/
def kMaxPasswordLength : Nat := 64

/-- Minimum "safe" password length referenced by the dialog
(`net::User::kSafePasswordLength`); spec §3: "≥ 8 code points". -/
def kSafePasswordLength : Nat := 8

/-- Maximum user-name length; spec §3: "3-64 code points". -/
def kMaxUserNameLength : Nat := 64

/-- Minimum user-name length; spec §3: "3-64 code points". -/
def kMinUserNameLength : Nat := 3

/-- Modelled from the spec: the character set of `net::User::isValidUserName`
(net/user.cc missing from the snapshot). Spec §3: names are "restricted to
`[A-Za-z0-9_.\-]`". -/
def isValidUserNameChar (c : Char) : Bool :=
  (('A' ≤ c && c ≤ 'Z') || ('a' ≤ c && c ≤ 'z') || ('0' ≤ c && c ≤ '9') ||
   c = '_' || c = '.' || c = '-')

/-- Modelled from the spec: `net::User::isValidUserName` (net/user.cc missing
from the snapshot; called from user_dialog.cc line 105). Spec §3: a name is a
UTF-8 string of 3-64 code points drawn from `[A-Za-z0-9_.\-]`. -/
def isValidUserName (username : List Char) : Bool :=
  if username.length < kMinUserNameLength then false
  else if username.length > kMaxUserNameLength then false
  else username.all isValidUserNameChar

/-- Modelled from the spec: `net::User::isValidPassword` (net/user.cc missing
from the snapshot; called from user_dialog.cc line 132). Spec §3 password
policy: "Non-empty, at most 64 code points." -/
def isValidPassword (password : List Char) : Bool :=
  if password.isEmpty then false
  else if password.length > kMaxPasswordLength then false
  else true

/-- Modelled from the spec: `net::User::isSafePassword` (net/user.cc missing
from the snapshot; called from user_dialog.cc line 145). Spec §3: a safe
password "additionally requires ≥ 8 code points, at least one lowercase, one
uppercase, one digit". -/
def isSafePassword (password : List Char) : Bool :=
  if password.length < kSafePasswordLength then false
  else
    password.any (fun c => 'a' ≤ c && c ≤ 'z') &&
    password.any (fun c => 'A' ≤ c && c ≤ 'Z') &&
    password.any (fun c => '0' ≤ c && c ≤ '9')

/-- The `ENABLED` bit of the user `flags` field. Modelled from the spec
(net/user.h missing from the snapshot): spec §3 names the bit but not its
position; the lowest bit is used here. Every theorem below uses the flag only
through the mask test `flags &&& ENABLED`. -/
def ENABLED : Nat := 1

end net

/-! ## source/peer/server_authenticator.h -/

namespace peer

/-- `ServerAuthenticator::InternalState` (server_authenticator.h, lines 71-80).
The enumeration as declared in the header: exactly seven enumerators, all of
them `READ_*`/`SEND_*` steps; there is no `DONE` and no `FAILED` enumerator. -/
inductive InternalState where
  | READ_CLIENT_HELLO
  | SEND_SERVER_HELLO
  | READ_IDENTIFY
  | SEND_SERVER_KEY_EXCHANGE
  | READ_CLIENT_KEY_EXCHANGE
  | SEND_SESSION_CHALLENGE
  | READ_SESSION_RESPONSE
  deriving DecidableEq, Repr, Fintype

/-- The C++ enumerator name of each `InternalState` value, as spelled in the
header declaration. -/
def InternalState.cppName : InternalState → String
  | .READ_CLIENT_HELLO => "READ_CLIENT_HELLO"
  | .SEND_SERVER_HELLO => "SEND_SERVER_HELLO"
  | .READ_IDENTIFY => "READ_IDENTIFY"
  | .SEND_SERVER_KEY_EXCHANGE => "SEND_SERVER_KEY_EXCHANGE"
  | .READ_CLIENT_KEY_EXCHANGE => "READ_CLIENT_KEY_EXCHANGE"
  | .SEND_SESSION_CHALLENGE => "SEND_SESSION_CHALLENGE"
  | .READ_SESSION_RESPONSE => "READ_SESSION_RESPONSE"

/-- The enumerators of `InternalState` in declaration order. -/
def internalStates : List InternalState :=
  [.READ_CLIENT_HELLO, .SEND_SERVER_HELLO, .READ_IDENTIFY,
   .SEND_SERVER_KEY_EXCHANGE, .READ_CLIENT_KEY_EXCHANGE,
   .SEND_SESSION_CHALLENGE, .READ_SESSION_RESPONSE]

/-- The state list claimed by the specification for the handshake state
(spec §3, "Handshake state"): a nine-element chain ending in `DONE | FAILED`.
Kept separate from the source-derived enumeration so the two can be compared. -/
def specHandshakeStateNames : List String :=
  ["READ_CLIENT_HELLO", "SEND_SERVER_HELLO", "READ_IDENTIFY",
   "SEND_SERVER_KEY_EXCHANGE", "READ_CLIENT_KEY_EXCHANGE",
   "SEND_SESSION_CHALLENGE", "READ_SESSION_RESPONSE", "DONE", "FAILED"]

/-- Position of a state along the linear handshake chain declared in the
header (declaration order of the enumerators). -/
def InternalState.chainIndex : InternalState → Nat
  | .READ_CLIENT_HELLO => 0
  | .SEND_SERVER_HELLO => 1
  | .READ_IDENTIFY => 2
  | .SEND_SERVER_KEY_EXCHANGE => 3
  | .READ_CLIENT_KEY_EXCHANGE => 4
  | .SEND_SESSION_CHALLENGE => 5
  | .READ_SESSION_RESPONSE => 6

/-- The kind of inbound handshake message, as distinguished by the
authenticator's message handlers declared in the header
(`onClientHello`, `onIdentify`, `onClientKeyExchange`, `onSessionResponse`);
`malformed` stands for any buffer that decodes as none of them. -/
inductive ClientMsg where
  | clientHello
  | identify
  | clientKeyExchange
  | sessionResponse
  | malformed
  deriving DecidableEq, Repr, Fintype

/-- Result of one step of the handshake driver: move to the next internal
state, complete the handshake, or fail with a fatal protocol error. -/
inductive StepResult where
  | next (s : InternalState)
  | completed
  | protocolError
  deriving DecidableEq, Repr

/-- Modelled from the spec: `ServerAuthenticator::onReceived`
(server_authenticator.cc is not in the snapshot; only its declaration at
server_authenticator.h line 58 is). Spec §3 and §4.5: each `READ_*` state
accepts exactly its own message and advances one step along the chain; a
message arriving in any other state, or the wrong message in a `READ_*`
state, is a fatal protocol error; the accepted `SessionResponse` completes
the handshake. -/
def onReceived : InternalState → ClientMsg → StepResult
  | .READ_CLIENT_HELLO, .clientHello => .next .SEND_SERVER_HELLO
  | .READ_IDENTIFY, .identify => .next .SEND_SERVER_KEY_EXCHANGE
  | .READ_CLIENT_KEY_EXCHANGE, .clientKeyExchange => .next .SEND_SESSION_CHALLENGE
  | .READ_SESSION_RESPONSE, .sessionResponse => .completed
  | _, _ => .protocolError

/-- Modelled from the spec: `ServerAuthenticator::onWritten`
(server_authenticator.cc not in the snapshot). After a `SEND_*` state's
outbound message has been written, the machine advances one step to the
next `READ_*` state; a write completion in a `READ_*` state has no
outbound message to account for and is a protocol error. -/
def onWritten : InternalState → StepResult
  | .SEND_SERVER_HELLO => .next .READ_IDENTIFY
  | .SEND_SERVER_KEY_EXCHANGE => .next .READ_CLIENT_KEY_EXCHANGE
  | .SEND_SESSION_CHALLENGE => .next .READ_SESSION_RESPONSE
  | _ => .protocolError

/-- The message a `READ_*` state expects; `SEND_*` states expect none. -/
def expectedMsg : InternalState → Option ClientMsg
  | .READ_CLIENT_HELLO => some .clientHello
  | .READ_IDENTIFY => some .identify
  | .READ_CLIENT_KEY_EXCHANGE => some .clientKeyExchange
  | .READ_SESSION_RESPONSE => some .sessionResponse
  | _ => none

/-- `ServerAuthenticator::AnonymousAccess` (server_authenticator.h,
lines 37-41). -/
inductive AnonymousAccess where
  | ENABLE
  | DISABLE
  deriving DecidableEq, Repr

/-- The configuration surface of `ServerAuthenticator`: the members
`anonymous_access_`, `session_types_` and the installed private key
(server_authenticator.h, lines 82-96). -/
structure ConfigState where
  anonymous_access : AnonymousAccess
  session_types : Nat
  private_key : Option (List Nat)
  deriving DecidableEq, Repr

/-- Member initializers of `ServerAuthenticator` (server_authenticator.h,
lines 82-86): `anonymous_access_ = AnonymousAccess::DISABLE` and
`session_types_ = 0`; no private key is installed. -/
def initialConfig : ConfigState :=
  { anonymous_access := .DISABLE, session_types := 0, private_key := none }

/-- Modelled from the spec: `ServerAuthenticator::setPrivateKey`
(server_authenticator.cc not in the snapshot; declaration at
server_authenticator.h line 47). Spec §4.5: the private key is a "32-byte
seed for the server's long-term identity key"; installing a key of any other
size fails. Returns the `[[nodiscard]] bool` result and the new state. -/
def setPrivateKey (st : ConfigState) (private_key : List Nat) : Bool × ConfigState :=
  if private_key.length = 32 then (true, { st with private_key := some private_key })
  else (false, st)

/-- Modelled from the spec: `ServerAuthenticator::setAnonymousAccess`
(server_authenticator.cc not in the snapshot; declaration and contract at
server_authenticator.h lines 49-53: "The private key must be set up for
anonymous access. By default, anonymous access is disabled."). Enabling
without an installed private key fails and changes nothing; otherwise the
mode and the allowed session-type mask are recorded. -/
def setAnonymousAccess (st : ConfigState) (anonymous_access : AnonymousAccess)
    (session_types : Nat) : Bool × ConfigState :=
  if anonymous_access = .ENABLE && st.private_key = none then (false, st)
  else (true, { st with anonymous_access := anonymous_access,
                        session_types := session_types })

/-- Number of base-256 digits of `n` (the byte width of a big number);
fuel-indexed so the kernel can evaluate it. -/
def byteWidthAux : Nat → Nat → Nat
  | 0, _ => 0
  | fuel + 1, n => if n = 0 then 0 else byteWidthAux fuel (n / 256) + 1

/-- Byte width of `n` in big-endian base-256 representation. -/
def byteWidth (n : Nat) : Nat :=
  byteWidthAux n n

/-- Big-endian base-256 representation of `n`, zero-padded on the left to
exactly `width` bytes — the `PAD` operation of spec §4.1/§6. -/
def toBEBytes : Nat → Nat → List Nat
  | 0, _ => []
  | width + 1, n => toBEBytes width (n / 256) ++ [n % 256]

/-- A byte string read back as a big-endian number. -/
def bytesToNat (bytes : List Nat) : Nat :=
  bytes.foldl (fun acc b => acc * 256 + b) 0

/-- Modelled from the spec: the arithmetic core of
`ServerAuthenticator::onClientKeyExchange` (server_authenticator.cc not in
the snapshot; declaration at server_authenticator.h line 64). Spec §4.5, on
ClientKeyExchange: "verify `A mod N ≠ 0`; otherwise fatal. Compute
`u = H(PAD(A) || PAD(B))`; if `u = 0`, fatal. Compute
`S = (A * v^u)^b mod N`". `H` is the protocol hash; `none` is the fatal
outcome, `some S` continues to key derivation. -/
def onClientKeyExchange (H : List Nat → Nat) (N B v b A : Nat) : Option Nat :=
  if A % N = 0 then none
  else
    let u := H (toBEBytes (byteWidth N) A ++ toBEBytes (byteWidth N) B)
    if u = 0 then none
    else some ((A * v ^ u) ^ b % N)

/-- A `net::User` record as described by spec §3 (net/user.h is not in the
snapshot): name, salt, SRP verifier, SRP group id, allowed session mask and
flags. -/
structure User where
  name : List Char
  salt : List Nat
  verifier : Nat
  group : Nat
  sessions : Nat
  flags : Nat
  deriving DecidableEq, Repr

/-- ASCII lower-casing, the "case-insensitive over the ASCII range"
comparison of spec §3. -/
def asciiLower (c : Char) : Char :=
  if 'A' ≤ c && c ≤ 'Z' then Char.ofNat (c.toNat + 32) else c

/-- Modelled from the spec: `UserList::find` (spec §4.4), case-insensitive
lookup of a user by name. -/
def findUser (users : List User) (name : List Char) : Option User :=
  users.find? (fun u => u.name.map asciiLower == name.map asciiLower)

/-- Whether a user record has the `ENABLED` flag set. -/
def userEnabled (u : User) : Bool :=
  u.flags &&& net.ENABLED ≠ 0

/-- Default SRP group id (spec §6: `srp_default_group` defaults to 3072). -/
def srpDefaultGroup : Nat := 3072

/-- Result of the Identify step: the `{salt, group, verifier}` triple the
server will use, and the internal "will-fail" mark. -/
structure IdentifyResult where
  salt : List Nat
  group : Nat
  verifier : Nat
  willFail : Bool
  deriving DecidableEq, Repr

/-- Modelled from the spec: `ServerAuthenticator::onIdentify`
(server_authenticator.cc not in the snapshot; declaration at
server_authenticator.h line 63). Spec §4.5, on Identify: "look up the user
(case-insensitive). If missing or disabled, synthesize a bogus `{salt, B}`
deterministically from `H(name || server_secret)` ...; continue the protocol
but mark the internal outcome as will-fail. Select `N`, `g` from the user's
group (or the default group for bogus records)." `H` is a byte-string hash
used for the deterministic synthesis. -/
def onIdentify (H : List Nat → List Nat) (serverSecret : List Nat)
    (users : List User) (name : List Char) : IdentifyResult :=
  let seed := H (name.map Char.toNat ++ serverSecret)
  let bogus : IdentifyResult :=
    { salt := seed, group := srpDefaultGroup, verifier := bytesToNat seed, willFail := true }
  match findUser users name with
  | some u =>
      if userEnabled u then
        { salt := u.salt, group := u.group, verifier := u.verifier, willFail := false }
      else bogus
  | none => bogus

/-- The ServerKeyExchange message of spec §4.5/§6:
`{n_group, salt, B, iv}`. -/
structure ServerKeyExchangeMsg where
  n_group : Nat
  salt : List Nat
  Bbytes : List Nat
  iv : List Nat
  deriving DecidableEq, Repr

/-- Modelled from the spec: the ServerKeyExchange reply produced after the
Identify step (spec §4.5): select `(N, g)` from the group of the identify
result via the group table `groups`, compute `B = (k*v + g^b) mod N`, and
send `{n_group, salt, PAD(B), iv}`. The pair also carries the internal
"will-fail" mark. -/
def serverKeyExchange (groups : Nat → Nat × Nat) (H : List Nat → List Nat)
    (serverSecret : List Nat) (users : List User) (name : List Char)
    (k b : Nat) (iv : List Nat) : ServerKeyExchangeMsg × Bool :=
  let ir := onIdentify H serverSecret users name
  let N := (groups ir.group).1
  let g := (groups ir.group).2
  let B := (k * ir.verifier + g ^ b) % N
  ({ n_group := ir.group, salt := ir.salt,
     Bbytes := toBEBytes (byteWidth N) B, iv := iv }, ir.willFail)

/-- What a client can observe of a ServerKeyExchange message's shape: the
group id field and the byte lengths of the variable-length fields. -/
def skeShape (m : ServerKeyExchangeMsg) : Nat × Nat × Nat × Nat :=
  (m.n_group, m.salt.length, m.Bbytes.length, m.iv.length)

/-- One client round trip against the state machine: receive a message in
state `s` and, when it is accepted, account for the server's reply being
written (`onWritten` from the `SEND_*` state the machine moved to). -/
def receiveAndReply (s : InternalState) (m : ClientMsg) : StepResult :=
  match onReceived s m with
  | .next s2 => onWritten s2
  | r => r

/-- Number of round trips a message sequence drives through the handshake
machine before it completes or fails; the message that completes or fails
the handshake counts as the final round trip. -/
def countRoundTrips : InternalState → List ClientMsg → Nat
  | _, [] => 0
  | s, m :: rest =>
    match receiveAndReply s m with
    | .next s2 => 1 + countRoundTrips s2 rest
    | .completed => 1
    | .protocolError => 1

/-- The inbound message sequence of a full SRP-path handshake
(spec §4.5). -/
def srpClientMessages : List ClientMsg :=
  [.clientHello, .identify, .clientKeyExchange, .sessionResponse]

end peer

/-! ## source/protocol/authorization.pb.cc -/

namespace proto

/-- `aspia::proto::auth::SessionType_IsValid` (authorization.pb.cc,
lines 108-118): the switch accepts the values 0, 1, 2 and 4. -/
def SessionType_IsValid (value : Int) : Bool :=
  if value = 0 then true
  else if value = 1 then true
  else if value = 2 then true
  else if value = 4 then true
  else false

/-- `aspia::proto::auth::Status_IsValid` (authorization.pb.cc,
lines 120-130): the switch accepts the values 0, 1, 2 and 3. -/
def Status_IsValid (value : Int) : Bool :=
  if value = 0 then true
  else if value = 1 then true
  else if value = 2 then true
  else if value = 3 then true
  else false

/-- Base-128 varint encoding used by the protobuf wire format, little-endian
groups of 7 bits with the continuation bit 0x80; fuel-indexed so the kernel
can evaluate it. -/
def varintEncodeAux : Nat → Nat → List Nat
  | 0, _ => []
  | fuel + 1, n => if n < 128 then [n] else (n % 128 + 128) :: varintEncodeAux fuel (n / 128)

/-- Base-128 varint encoding of `n`; `n + 1` units of fuel always suffice. -/
def varintEncode (n : Nat) : List Nat :=
  varintEncodeAux (n + 1) n

/-- Field dispatch of `Request::MergePartialFromCodedStream`
(authorization.pb.cc, lines 207-267): field number `tag >> 3`; field 1
(`uint32 version`) is accepted when the low byte of the tag is 8, field 2
(`bytes nonce`) when it is 18; every other tag falls to `handle_unusual`
(unknown field, skipped). -/
def requestKnownField (tag : Nat) : Option String :=
  if tag >>> 3 = 1 then (if tag % 256 = 8 then some "version" else none)
  else if tag >>> 3 = 2 then (if tag % 256 = 18 then some "nonce" else none)
  else none

/-- Field dispatch of `Response::MergePartialFromCodedStream`
(authorization.pb.cc, lines 449-526): field 1 (`SessionType session_type`,
tag byte 8), field 2 (`string username`, tag byte 18), field 3 (`bytes key`,
tag byte 26). -/
def responseKnownField (tag : Nat) : Option String :=
  if tag >>> 3 = 1 then (if tag % 256 = 8 then some "session_type" else none)
  else if tag >>> 3 = 2 then (if tag % 256 = 18 then some "username" else none)
  else if tag >>> 3 = 3 then (if tag % 256 = 26 then some "key" else none)
  else none

/-- Field dispatch of `Result::MergePartialFromCodedStream`
(authorization.pb.cc, lines 714-763): field 1 (`Status status`, tag byte 8)
only. -/
def resultKnownField (tag : Nat) : Option String :=
  if tag >>> 3 = 1 then (if tag % 256 = 8 then some "status" else none)
  else none

/-- `Request::SerializeWithCachedSizes` (authorization.pb.cc, lines 269-289):
field 1 `uint32 version` (tag byte 8, written only when non-zero), then
field 2 `bytes nonce` (tag byte 18, written only when non-empty). -/
def requestSerialize (version : Nat) (nonce : List Nat) : List Nat :=
  (if version ≠ 0 then 8 :: varintEncode version else []) ++
  (if nonce.length > 0 then 18 :: varintEncode nonce.length ++ nonce else [])

/-- `Response::SerializeWithCachedSizes` (authorization.pb.cc, lines
528-559): field 1 enum `session_type` (tag byte 8, when non-zero), field 2
string `username` (tag byte 18, when non-empty), field 3 bytes `key` (tag
byte 26, when non-empty). -/
def responseSerialize (sessionType : Nat) (username key : List Nat) : List Nat :=
  (if sessionType ≠ 0 then 8 :: varintEncode sessionType else []) ++
  (if username.length > 0 then 18 :: varintEncode username.length ++ username else []) ++
  (if key.length > 0 then 26 :: varintEncode key.length ++ key else [])

/-- `Result::SerializeWithCachedSizes` (authorization.pb.cc, lines 765-780):
field 1 enum `status` (tag byte 8, when non-zero). -/
def resultSerialize (status : Nat) : List Nat :=
  if status ≠ 0 then 8 :: varintEncode status else []

/-- The authorization wire messages actually declared by
authorization.pb.cc, with their field numbers, types and names, as written
in the generated parse/serialize code and the `GetTypeName` methods. -/
def authMessages : List (String × List (Nat × String)) :=
  [("Request", [(1, "uint32 version"), (2, "bytes nonce")]),
   ("Response", [(1, "SessionType session_type"), (2, "string username"), (3, "bytes key")]),
   ("Result", [(1, "Status status")])]

/-- The authentication wire-message table claimed by the specification
(spec §6) — kept separate from the source-derived table for comparison. -/
def specAuthMessages : List (String × List (Nat × String)) :=
  [("ClientHello", [(1, "uint32 version"), (2, "uint32 methods")]),
   ("ServerHello", [(1, "uint32 version"), (2, "uint32 method"), (3, "bytes ecdh_public")]),
   ("Identify", [(1, "string username")]),
   ("ServerKeyExchange", [(1, "uint32 n_group"), (2, "bytes salt"), (3, "bytes B"), (4, "bytes iv")]),
   ("ClientKeyExchange", [(1, "bytes A"), (2, "bytes iv"), (3, "bytes encrypted_payload")]),
   ("SessionChallenge", [(1, "uint32 session_types"), (2, "uint32 cpu_features"), (3, "uint32 version")]),
   ("SessionResponse", [(1, "uint32 session_type"), (2, "uint32 cpu_features")])]

end proto

/-! ## source/base/logging.cc -/

namespace logging

/-- Severity scale from `severityName` (logging.cc, lines 48-61): the names
array pins `LS_INFO = 0`. -/
def LS_INFO : Int := 0

/-- `LS_WARNING = 1` per the `severityName` array. -/
def LS_WARNING : Int := 1

/-- `LS_ERROR = 2` per the `severityName` array. -/
def LS_ERROR : Int := 2

/-- `LS_FATAL = 3` per the `severityName` array. -/
def LS_FATAL : Int := 3

/-- The `LOG_NONE` destination. `logging.h` is not in the snapshot;
`shouldCreateLogMessage` only compares the destination against `LOG_NONE`
for equality, so the destination bitmask is modelled as a natural number
with `LOG_NONE` the empty mask. -/
def LOG_NONE : Nat := 0

/-- `base::shouldCreateLogMessage` (logging.cc, lines 212-221), with the
globals `g_min_log_level` and `g_logging_destination` passed explicitly:
returns `false` when `severity < g_min_log_level`, otherwise returns
`g_logging_destination != LOG_NONE || severity >= LS_ERROR`. -/
def shouldCreateLogMessage (g_min_log_level : Int) (g_logging_destination : Nat)
    (severity : Int) : Bool :=
  if severity < g_min_log_level then false
  else g_logging_destination ≠ LOG_NONE || severity ≥ LS_ERROR

/-- Default of `g_min_log_level` (logging.cc, line 42): `LS_INFO`. -/
def defaultMinLogLevel : Int := LS_INFO

end logging

/-! ## source/router/manager/user_dialog.cc -/

namespace router

/-- `proto::RouterSession` values used by the dialog (the enum's defining
proto is not in the snapshot; the dialog uses exactly these two). -/
inductive RouterSession where
  | ROUTER_SESSION_AUTHORIZED_PEER
  | ROUTER_SESSION_MANAGER
  deriving DecidableEq, Repr

/-- `UserDialog::UserDialog` (user_dialog.cc, lines 35-45): the initial
checked state of `checkbox_enable`. For an existing user (non-empty name) it
is `!(user.flags() & net::User::ENABLED)`; for a new user (empty name) it is
checked. -/
def checkboxEnableInit (nameEmpty : Bool) (flags : Nat) : Bool :=
  if !nameEmpty then !(flags &&& net.ENABLED ≠ 0) else true

/-- The `add_session` lambda of `UserDialog::UserDialog` (user_dialog.cc,
lines 47-72): the initial check state of a session row. For an existing user
it is `user.sessions() & session_type`; for a new user only
`ROUTER_SESSION_AUTHORIZED_PEER` is pre-checked. `enc` is the numeric value
of the proto enum constant, whose defining proto is not in the snapshot. -/
def addSessionCheckState (enc : RouterSession → Nat) (nameEmpty : Bool)
    (sessions : Nat) (sessionType : RouterSession) : Bool :=
  if !nameEmpty then sessions &&& enc sessionType ≠ 0
  else if sessionType = .ROUTER_SESSION_AUTHORIZED_PEER then true
  else false

/-- Outcome of a button-box click on the user dialog. -/
inductive DialogOutcome where
  | accepted
  | rejected
  | stay
  deriving DecidableEq, Repr

/-- `UserDialog::onButtonBoxClicked` (user_dialog.cc, lines 98-179), decision
structure. On the OK button: an invalid user name, mismatched password
fields, or an invalid password each keep the dialog open; an unsafe (but
valid) password asks the user whether to enter a different one and keeps the
dialog open only on "Yes" (`retryUnsafe`); otherwise the dialog accepts.
Any other button rejects. -/
def onButtonBoxClicked (okButton : Bool) (name pass passRetry : List Char)
    (retryUnsafe : Bool) : DialogOutcome :=
  if okButton then
    if !net.isValidUserName name then .stay
    else if pass ≠ passRetry then .stay
    else if !net.isValidPassword pass then .stay
    else if !net.isSafePassword pass && retryUnsafe then .stay
    else .accepted
  else .rejected

end router

/-! ## Theorems -/

/-- A fixed-width big-endian conversion always yields exactly `width`
bytes. -/
theorem toBEBytes_length (width n : Nat) : (peer.toBEBytes width n).length = width := by
  induction width generalizing n with
  | zero => rfl
  | succ w ih => simp [peer.toBEBytes, ih]

/-- The values accepted by `SessionType_IsValid` are exactly 0, 1, 2, 4. -/
theorem sessionTypeIsValid_iff (n : Int) :
    proto.SessionType_IsValid n = true ↔ n = 0 ∨ n = 1 ∨ n = 2 ∨ n = 4 := by
  unfold proto.SessionType_IsValid
  split_ifs <;> simp_all

/-- For a user that is missing from the list or disabled, the Identify step
produces the bogus record synthesized from `H(name || server_secret)`. -/
theorem onIdentify_unknown_or_disabled (H : List Nat → List Nat)
    (secret : List Nat) (users : List peer.User) (name : List Char)
    (h : ∀ u, peer.findUser users name = some u → peer.userEnabled u = false) :
    peer.onIdentify H secret users name =
      { salt := H (name.map Char.toNat ++ secret),
        group := peer.srpDefaultGroup,
        verifier := peer.bytesToNat (H (name.map Char.toNat ++ secret)),
        willFail := true } := by
  unfold peer.onIdentify
  rcases hf : peer.findUser users name with _ | u
  · simp
  · simp [h u hf]

/-- For an enabled user in the list, the Identify step uses the record's own
salt, group and verifier and is not marked will-fail. -/
theorem onIdentify_enabled (H : List Nat → List Nat) (secret : List Nat)
    (users : List peer.User) (name : List Char) (u : peer.User)
    (hf : peer.findUser users name = some u) (he : peer.userEnabled u = true) :
    peer.onIdentify H secret users name =
      { salt := u.salt, group := u.group, verifier := u.verifier,
        willFail := false } := by
  unfold peer.onIdentify
  simp [hf, he]

/-- C3 counterexample: the claimed indistinguishability does not hold for
every enabled user. An enabled user whose record uses SRP group 2048 and a
32-byte salt (both allowed by spec §3) yields a ServerKeyExchange whose
observable shape — the `n_group` field and the salt length — differs from
the bogus record synthesized for an unknown user, which always carries the
default group and the 64-byte hash output as salt. -/
theorem C3_user_enumeration_counterexample :
    peer.userEnabled ⟨['b', 'o', 'b'], List.replicate 32 2, 7, 2048, 3, 1⟩ = true ∧
    peer.findUser [⟨['b', 'o', 'b'], List.replicate 32 2, 7, 2048, 3, 1⟩]
        ['b', 'o', 'b'] =
      some ⟨['b', 'o', 'b'], List.replicate 32 2, 7, 2048, 3, 1⟩ ∧
    (peer.serverKeyExchange (fun _ => (23, 5))
        (fun x => List.replicate 64 (x.length % 256)) [9] [] ['e', 'v', 'e'] 3 5
        (List.replicate 16 0)).2 = true ∧
    (peer.serverKeyExchange (fun _ => (23, 5))
        (fun x => List.replicate 64 (x.length % 256)) [9]
        [⟨['b', 'o', 'b'], List.replicate 32 2, 7, 2048, 3, 1⟩] ['b', 'o', 'b'] 3 5
        (List.replicate 16 0)).2 = false ∧
    peer.skeShape (peer.serverKeyExchange (fun _ => (23, 5))
        (fun x => List.replicate 64 (x.length % 256)) [9] [] ['e', 'v', 'e'] 3 5
        (List.replicate 16 0)).1 ≠
      peer.skeShape (peer.serverKeyExchange (fun _ => (23, 5))
        (fun x => List.replicate 64 (x.length % 256)) [9]
        [⟨['b', 'o', 'b'], List.replicate 32 2, 7, 2048, 3, 1⟩] ['b', 'o', 'b'] 3 5
        (List.replicate 16 0)).1 := by
  refine ⟨by decide, by decide, by decide, by decide, by decide⟩

/-- C3 (amended): for an Identify naming a missing or disabled user the
server synthesizes a bogus `{salt, B}` pair deterministically from
`H(name || server_secret)` and continues marked will-fail; whenever the
enabled comparison user's record uses the default SRP group and a salt of
the hash's output length (64 bytes), the ServerKeyExchange observable shape
and the number of round trips before failure are the same between the two
runs. -/
theorem C3_user_enumeration_resistance
    (groups : Nat → Nat × Nat) (H : List Nat → List Nat)
    (secret : List Nat) (users1 users2 : List peer.User)
    (name1 name2 : List Char) (u2 : peer.User) (k b : Nat) (iv : List Nat)
    (h1 : ∀ u, peer.findUser users1 name1 = some u → peer.userEnabled u = false)
    (h2 : peer.findUser users2 name2 = some u2)
    (h2e : peer.userEnabled u2 = true)
    (hH : ∀ x, (H x).length = 64)
    (hsalt : u2.salt.length = 64)
    (hgroup : u2.group = peer.srpDefaultGroup) :
    peer.skeShape (peer.serverKeyExchange groups H secret users1 name1 k b iv).1 =
      peer.skeShape (peer.serverKeyExchange groups H secret users2 name2 k b iv).1 ∧
    (peer.serverKeyExchange groups H secret users1 name1 k b iv).2 = true ∧
    (peer.serverKeyExchange groups H secret users2 name2 k b iv).2 = false ∧
    (∀ users3,
        (∀ u, peer.findUser users3 name1 = some u → peer.userEnabled u = false) →
          peer.serverKeyExchange groups H secret users3 name1 k b iv =
            peer.serverKeyExchange groups H secret users1 name1 k b iv) ∧
    peer.countRoundTrips .READ_CLIENT_HELLO peer.srpClientMessages = 4 := by
  have hb1 := onIdentify_unknown_or_disabled H secret users1 name1 h1
  have hb2 := onIdentify_enabled H secret users2 name2 u2 h2 h2e
  refine ⟨?_, ?_, ?_, ?_, by decide⟩
  · simp [peer.serverKeyExchange, hb1, hb2, peer.skeShape, toBEBytes_length,
      hH, hsalt, hgroup]
  · simp [peer.serverKeyExchange, hb1]
  · simp [peer.serverKeyExchange, hb2]
  · intro users3 h3
    have hb3 := onIdentify_unknown_or_disabled H secret users3 name1 h3
    simp [peer.serverKeyExchange, hb3, hb1]

/-- C3 witness: a run for the disabled user `"eve"` against a run for the
enabled user `"alice"`, with a 64-byte hash and 64-byte salts: equal
ServerKeyExchange shapes, the will-fail mark on the first run only, and the
same round-trip count. -/
theorem C3_user_enumeration_resistance_witness :
    peer.skeShape (peer.serverKeyExchange (fun _ => (23, 5))
        (fun x => List.replicate 64 (x.length % 256)) [9]
        [⟨['e', 'v', 'e'], List.replicate 64 1, 3, peer.srpDefaultGroup, 1, 0⟩]
        ['e', 'v', 'e'] 3 5 (List.replicate 16 0)).1 =
      peer.skeShape (peer.serverKeyExchange (fun _ => (23, 5))
        (fun x => List.replicate 64 (x.length % 256)) [9]
        [⟨['a', 'l', 'i', 'c', 'e'], List.replicate 64 2, 7, peer.srpDefaultGroup, 3, 1⟩]
        ['a', 'l', 'i', 'c', 'e'] 3 5 (List.replicate 16 0)).1 ∧
    (peer.serverKeyExchange (fun _ => (23, 5))
        (fun x => List.replicate 64 (x.length % 256)) [9]
        [⟨['e', 'v', 'e'], List.replicate 64 1, 3, peer.srpDefaultGroup, 1, 0⟩]
        ['e', 'v', 'e'] 3 5 (List.replicate 16 0)).2 = true ∧
    (peer.serverKeyExchange (fun _ => (23, 5))
        (fun x => List.replicate 64 (x.length % 256)) [9]
        [⟨['a', 'l', 'i', 'c', 'e'], List.replicate 64 2, 7, peer.srpDefaultGroup, 3, 1⟩]
        ['a', 'l', 'i', 'c', 'e'] 3 5 (List.replicate 16 0)).2 = false ∧
    peer.countRoundTrips .READ_CLIENT_HELLO peer.srpClientMessages = 4 := by
  have h := C3_user_enumeration_resistance (fun _ => (23, 5))
    (fun x => List.replicate 64 (x.length % 256)) [9]
    [⟨['e', 'v', 'e'], List.replicate 64 1, 3, peer.srpDefaultGroup, 1, 0⟩]
    [⟨['a', 'l', 'i', 'c', 'e'], List.replicate 64 2, 7, peer.srpDefaultGroup, 3, 1⟩]
    ['e', 'v', 'e'] ['a', 'l', 'i', 'c', 'e']
    ⟨['a', 'l', 'i', 'c', 'e'], List.replicate 64 2, 7, peer.srpDefaultGroup, 3, 1⟩
    3 5 (List.replicate 16 0)
    (fun u hu => by
      have hfind : peer.findUser
          [⟨['e', 'v', 'e'], List.replicate 64 1, 3, peer.srpDefaultGroup, 1, 0⟩]
          ['e', 'v', 'e'] =
          some ⟨['e', 'v', 'e'], List.replicate 64 1, 3, peer.srpDefaultGroup, 1, 0⟩ := by
        decide
      rw [hfind] at hu
      rw [← Option.some_inj.mp hu]
      decide)
    (by decide) (by decide) (fun x => by simp) (by simp) rfl
  exact ⟨h.1, h.2.1, h.2.2.1, h.2.2.2.2⟩

/-- C9: `shouldCreateLogMessage(severity)` returns true iff `severity` is at
least the configured minimum log level and, in addition, either the logging
destination is not `LOG_NONE` or `severity` is at least `LS_ERROR`; in
particular `LS_ERROR` and `LS_FATAL` messages are created even when the
destination is `LOG_NONE` (at the default minimum level). -/
theorem C9_shouldCreateLogMessage_charact :
    (∀ (minLevel : Int) (dest : Nat) (severity : Int),
        logging.shouldCreateLogMessage minLevel dest severity = true ↔
          (minLevel ≤ severity ∧
            (dest ≠ logging.LOG_NONE ∨ logging.LS_ERROR ≤ severity))) ∧
    logging.shouldCreateLogMessage logging.defaultMinLogLevel logging.LOG_NONE
        logging.LS_ERROR = true ∧
    logging.shouldCreateLogMessage logging.defaultMinLogLevel logging.LOG_NONE
        logging.LS_FATAL = true := by
  refine ⟨fun minLevel dest severity => ?_, by decide, by decide⟩
  unfold logging.shouldCreateLogMessage
  split_ifs with h
  · simp only [Bool.false_eq_true, false_iff]
    intro hc
    exact absurd hc.1 (by omega)
  · simp [logging.LS_ERROR, Bool.or_eq_true, decide_eq_true_eq]
    intro
    omega

/-- C10: when the user dialog opens for an existing user (non-empty name) the
"enable" checkbox is initialized to checked exactly when the `ENABLED` bit is
absent from the user's flags; for a new user (empty name) the checkbox is
checked and the `ROUTER_SESSION_AUTHORIZED_PEER` session row is pre-checked
while the `ROUTER_SESSION_MANAGER` row is not. -/
theorem C10_user_dialog_init :
    (∀ flags : Nat,
        router.checkboxEnableInit false flags = true ↔ flags &&& net.ENABLED = 0) ∧
    (∀ flags : Nat, router.checkboxEnableInit true flags = true) ∧
    (∀ (enc : router.RouterSession → Nat) (sessions : Nat),
        router.addSessionCheckState enc true sessions .ROUTER_SESSION_AUTHORIZED_PEER
            = true ∧
        router.addSessionCheckState enc true sessions .ROUTER_SESSION_MANAGER
            = false) := by
  refine ⟨fun flags => ?_, fun flags => rfl, fun enc sessions => ⟨rfl, rfl⟩⟩
  simp [router.checkboxEnableInit]

/-- C1 counterexample: the claim lists nine states, ending in `DONE` and
`FAILED`; the `InternalState` enumeration declared in
server_authenticator.h has exactly seven enumerators and contains neither
`DONE` nor `FAILED`. -/
theorem C1_internal_state_counterexample :
    peer.internalStates.map peer.InternalState.cppName ≠ peer.specHandshakeStateNames ∧
    "DONE" ∉ peer.internalStates.map peer.InternalState.cppName ∧
    "FAILED" ∉ peer.internalStates.map peer.InternalState.cppName ∧
    peer.internalStates.length = 7 := by decide

/-- C1 (amended): the server-side handshake state enumeration consists of
exactly the seven states `READ_CLIENT_HELLO` through `READ_SESSION_RESPONSE`
(completion and failure are signalled outside this enumeration); the machine
only moves along the linear chain — every accepted message and every write
completion advances the chain index by exactly one — a message arriving in
any state other than the one that expects it is a fatal protocol error, and
the accepted final `SessionResponse` completes the handshake. -/
theorem C1_internal_state_machine :
    (peer.internalStates.map peer.InternalState.cppName =
        ["READ_CLIENT_HELLO", "SEND_SERVER_HELLO", "READ_IDENTIFY",
         "SEND_SERVER_KEY_EXCHANGE", "READ_CLIENT_KEY_EXCHANGE",
         "SEND_SESSION_CHALLENGE", "READ_SESSION_RESPONSE"] ∧
      peer.internalStates.Nodup ∧
      ∀ s : peer.InternalState, s ∈ peer.internalStates) ∧
    (∀ (s s2 : peer.InternalState) (m : peer.ClientMsg),
        peer.onReceived s m = .next s2 → s2.chainIndex = s.chainIndex + 1) ∧
    (∀ s s2 : peer.InternalState,
        peer.onWritten s = .next s2 → s2.chainIndex = s.chainIndex + 1) ∧
    (∀ (s : peer.InternalState) (m : peer.ClientMsg),
        peer.expectedMsg s ≠ some m → peer.onReceived s m = .protocolError) ∧
    peer.onReceived .READ_SESSION_RESPONSE .sessionResponse = .completed := by
  decide

/-- C1 witness: the chain step `READ_CLIENT_HELLO → SEND_SERVER_HELLO` on an
accepted ClientHello, and the fatal error for a ClientHello arriving in
`READ_IDENTIFY`. -/
theorem C1_internal_state_machine_witness :
    peer.InternalState.chainIndex .SEND_SERVER_HELLO =
      peer.InternalState.chainIndex .READ_CLIENT_HELLO + 1 ∧
    peer.onReceived .READ_IDENTIFY .clientHello = .protocolError :=
  ⟨C1_internal_state_machine.2.1 .READ_CLIENT_HELLO .SEND_SERVER_HELLO
      .clientHello (by decide),
   C1_internal_state_machine.2.2.2.1 .READ_IDENTIFY .clientHello (by decide)⟩

/-- C4: anonymous access is disabled by default with an empty session-type
mask; `setAnonymousAccess(ENABLE, types)` succeeds exactly when a private key
has been installed, recording the mode and the mask, and fails leaving the
configuration unchanged when no private key is installed. -/
theorem C4_anonymous_access_config :
    (peer.initialConfig.anonymous_access = .DISABLE ∧
      peer.initialConfig.session_types = 0 ∧
      peer.initialConfig.private_key = none) ∧
    (∀ (st : peer.ConfigState) (types : Nat), st.private_key = none →
        peer.setAnonymousAccess st .ENABLE types = (false, st)) ∧
    (∀ (st : peer.ConfigState) (types : Nat),
        (peer.setAnonymousAccess st .ENABLE types).1 = true ↔
          st.private_key ≠ none) ∧
    (∀ (st : peer.ConfigState) (key : List Nat) (types : Nat),
        (peer.setPrivateKey st key).1 = true →
          (peer.setAnonymousAccess (peer.setPrivateKey st key).2 .ENABLE types).1
              = true ∧
          (peer.setAnonymousAccess (peer.setPrivateKey st key).2 .ENABLE
              types).2.anonymous_access = .ENABLE ∧
          (peer.setAnonymousAccess (peer.setPrivateKey st key).2 .ENABLE
              types).2.session_types = types) := by
  refine ⟨⟨rfl, rfl, rfl⟩, fun st types h => ?_, fun st types => ?_,
    fun st key types h => ?_⟩
  · simp [peer.setAnonymousAccess, h]
  · unfold peer.setAnonymousAccess
    cases hk : st.private_key <;> simp [hk]
  · unfold peer.setPrivateKey at h ⊢
    split_ifs at h with hl
    simp [peer.setAnonymousAccess, hl]

/-- C4 witness: enabling anonymous access on a fresh authenticator fails and
changes nothing; after installing a 32-byte private key it succeeds and
records mode and mask. -/
theorem C4_anonymous_access_config_witness :
    peer.setAnonymousAccess peer.initialConfig .ENABLE 3 =
        (false, peer.initialConfig) ∧
    (peer.setAnonymousAccess
        (peer.setPrivateKey peer.initialConfig (List.replicate 32 0)).2 .ENABLE 3).1
      = true :=
  ⟨C4_anonymous_access_config.2.1 peer.initialConfig 3 rfl,
   (C4_anonymous_access_config.2.2.2 peer.initialConfig (List.replicate 32 0) 3
      (by decide)).1⟩

/-- C2: handling ClientKeyExchange fails fatally exactly when the received
client public value satisfies `A mod N = 0` or the scrambling parameter
`u = H(PAD(A) || PAD(B))` equals 0; in every other case processing continues
to key derivation with `S = (A * v^u)^b mod N`. -/
theorem C2_client_key_exchange_checks :
    ∀ (H : List Nat → Nat) (N B v b A : Nat),
      peer.onClientKeyExchange H N B v b A = none ↔
        (A % N = 0 ∨
          H (peer.toBEBytes (peer.byteWidth N) A ++
             peer.toBEBytes (peer.byteWidth N) B) = 0) := by
  intro H N B v b A
  unfold peer.onClientKeyExchange
  split_ifs <;> simp_all

/-- C5 counterexample: the set of authentication wire messages defined by
authorization.pb.cc is `{Request, Response, Result}`, not the seven-message
table of the specification. -/
theorem C5_wire_messages_counterexample :
    proto.authMessages ≠ proto.specAuthMessages ∧
    proto.authMessages.map Prod.fst = ["Request", "Response", "Result"] ∧
    proto.specAuthMessages.map Prod.fst =
      ["ClientHello", "ServerHello", "Identify", "ServerKeyExchange",
       "ClientKeyExchange", "SessionChallenge", "SessionResponse"] := by decide

/-- C5 (amended): the authorization wire messages defined by the repository
are exactly `Request{1: uint32 version, 2: bytes nonce}`,
`Response{1: SessionType session_type, 2: string username, 3: bytes key}`
and `Result{1: Status status}`: each message's parser recognizes exactly the
tag bytes of those fields (8 and 18, resp. 8, 18, 26, resp. 8), and each
serializer emits the fields under those tags. -/
theorem C5_wire_messages :
    (∀ tag : Nat, proto.requestKnownField tag =
        (if tag = 8 then some "version"
         else if tag = 18 then some "nonce" else none)) ∧
    (∀ tag : Nat, proto.responseKnownField tag =
        (if tag = 8 then some "session_type"
         else if tag = 18 then some "username"
         else if tag = 26 then some "key" else none)) ∧
    (∀ tag : Nat, proto.resultKnownField tag =
        (if tag = 8 then some "status" else none)) ∧
    proto.requestSerialize 1 [171] = [8, 1, 18, 1, 171] ∧
    proto.responseSerialize 2 [117] [5, 6] = [8, 2, 18, 1, 117, 26, 2, 5, 6] ∧
    proto.resultSerialize 3 = [8, 3] ∧
    proto.authMessages.map Prod.fst = ["Request", "Response", "Result"] := by
  have hdiv : ∀ tag : Nat, tag >>> 3 = tag / 8 := by
    intro tag
    simp [Nat.shiftRight_eq_div_pow]
  refine ⟨fun tag => ?_, fun tag => ?_, fun tag => ?_,
    by decide, by decide, by decide, by decide⟩
  · unfold proto.requestKnownField
    rw [hdiv]
    split_ifs <;> first | rfl | omega
  · unfold proto.responseKnownField
    rw [hdiv]
    split_ifs <;> first | rfl | omega
  · unfold proto.resultKnownField
    rw [hdiv]
    split_ifs <;> first | rfl | omega

/-- C6 counterexample: no assignment of distinct non-zero integer encodings
to the five session types named by the specification makes
`SessionType_IsValid` accept exactly those encodings plus zero — the
predicate accepts only three non-zero values (1, 2, 4). -/
theorem C6_session_type_counterexample :
    ¬ ∃ enc : Fin 5 → Int, Function.Injective enc ∧ (∀ i, enc i ≠ 0) ∧
        (∀ n : Int, proto.SessionType_IsValid n = true ↔ (n = 0 ∨ ∃ i, enc i = n)) := by
  rintro ⟨enc, hinj, hnz, hiff⟩
  have hmem : ∀ i : Fin 5, enc i ∈ ({1, 2, 4} : Finset Int) := by
    intro i
    have hv : proto.SessionType_IsValid (enc i) = true :=
      (hiff (enc i)).mpr (Or.inr ⟨i, rfl⟩)
    rcases (sessionTypeIsValid_iff (enc i)).mp hv with h | h | h | h
    · exact absurd h (hnz i)
    all_goals simp [h]
  have hcard : (Finset.univ : Finset (Fin 5)).card ≤ ({1, 2, 4} : Finset Int).card :=
    Finset.card_le_card_of_injOn enc (fun i _ => hmem i) (fun a _ b _ h => hinj h)
  simp at hcard

/-- C6 (amended): `SessionType_IsValid` accepts exactly the integers 0, 1, 2
and 4 — the unset value plus three session types encoded as pairwise disjoint
bits — and rejects every other integer, in particular every negative one;
the two router session types belong to a different enumeration and are not
accepted by this predicate. -/
theorem C6_session_type_validity :
    (∀ n : Int, proto.SessionType_IsValid n = true ↔
        (n = 0 ∨ n = 1 ∨ n = 2 ∨ n = 4)) ∧
    (∀ n : Int, n < 0 → proto.SessionType_IsValid n = false) ∧
    (proto.SessionType_IsValid 1 = true ∧ proto.SessionType_IsValid 2 = true ∧
     proto.SessionType_IsValid 4 = true ∧
     (1 : Nat) &&& 2 = 0 ∧ (1 : Nat) &&& 4 = 0 ∧ (2 : Nat) &&& 4 = 0) := by
  refine ⟨sessionTypeIsValid_iff, fun n hn => ?_, by decide⟩
  cases h : proto.SessionType_IsValid n with
  | false => rfl
  | true =>
    rcases (sessionTypeIsValid_iff n).mp h with h0 | h0 | h0 | h0 <;> omega

/-- C6 witness: a negative integer is rejected. -/
theorem C6_session_type_validity_witness :
    proto.SessionType_IsValid (-3) = false :=
  C6_session_type_validity.2.1 (-3) (by decide)

/-- C7 counterexample: the claim judges the password `"pw"` invalid, but
`isValidPassword` (non-empty, at most 64 code points) accepts it. -/
theorem C7_password_counterexample :
    net.isValidPassword ['p', 'w'] = true := by decide

/-- C7 (amended): `isValidPassword(p)` holds iff `p` is non-empty and at most
64 code points; `isSafePassword` additionally requires at least 8 code points
with a lowercase letter, an uppercase letter and a digit; concretely `"pw"`
is valid but not safe, a 65-byte string is invalid, `"Str0ng_pass!"` is valid
and safe, `"password"` is valid but not safe — and safety is only advisory at
user-creation time: the dialog accepts an unsafe but valid password when the
user declines to enter a different one. -/
theorem C7_password_policy :
    (∀ p : List Char,
        net.isValidPassword p = true ↔ (p ≠ [] ∧ p.length ≤ 64)) ∧
    (∀ p : List Char,
        net.isSafePassword p = true ↔
          (8 ≤ p.length ∧ (∃ c ∈ p, 'a' ≤ c ∧ c ≤ 'z') ∧
           (∃ c ∈ p, 'A' ≤ c ∧ c ≤ 'Z') ∧ (∃ c ∈ p, '0' ≤ c ∧ c ≤ '9'))) ∧
    (net.isValidPassword ['p', 'w'] = true ∧ net.isSafePassword ['p', 'w'] = false) ∧
    net.isValidPassword (List.replicate 65 'a') = false ∧
    (net.isValidPassword ['S', 't', 'r', '0', 'n', 'g', '_', 'p', 'a', 's', 's', '!'] = true ∧
     net.isSafePassword ['S', 't', 'r', '0', 'n', 'g', '_', 'p', 'a', 's', 's', '!'] = true) ∧
    (net.isValidPassword ['p', 'a', 's', 's', 'w', 'o', 'r', 'd'] = true ∧
     net.isSafePassword ['p', 'a', 's', 's', 'w', 'o', 'r', 'd'] = false) ∧
    router.onButtonBoxClicked true ['a', 'l', 'i', 'c', 'e']
        ['p', 'a', 's', 's', 'w', 'o', 'r', 'd'] ['p', 'a', 's', 's', 'w', 'o', 'r', 'd']
        false = .accepted := by
  refine ⟨fun p => ?_, fun p => ?_, by decide, by decide, by decide, by decide, by decide⟩
  · unfold net.isValidPassword
    split_ifs with h1 h2
    · simp_all [List.isEmpty_iff]
    · simp_all [net.kMaxPasswordLength]
    · simp_all [List.isEmpty_iff, net.kMaxPasswordLength]
  · unfold net.isSafePassword
    split_ifs with h1
    · simp_all [net.kSafePasswordLength]
    · simp only [net.kSafePasswordLength, not_lt] at h1
      simp [List.any_eq_true, h1, decide_eq_true_eq]
      tauto

/-- C8: user-name validation accepts a name iff it has 3 to 64 code points
drawn only from `[A-Za-z0-9_.\-]`; the name `"alice\x00drop"` is rejected,
and the user dialog never accepts a name failing the predicate. -/
theorem C8_user_name_validation :
    (∀ name : List Char,
        net.isValidUserName name = true ↔
          (3 ≤ name.length ∧ name.length ≤ 64 ∧
           ∀ c ∈ name, net.isValidUserNameChar c = true)) ∧
    net.isValidUserName ['a', 'l', 'i', 'c', 'e', '\x00', 'd', 'r', 'o', 'p'] = false ∧
    (∀ (name pass passRetry : List Char) (retryUnsafe : Bool),
        net.isValidUserName name = false →
          router.onButtonBoxClicked true name pass passRetry retryUnsafe ≠ .accepted) := by
  refine ⟨fun name => ?_, by decide, fun name pass passRetry retryUnsafe h => ?_⟩
  · unfold net.isValidUserName
    split_ifs with h1 h2
    · simp_all [net.kMinUserNameLength]
    · simp_all [net.kMaxUserNameLength]
    · simp_all [net.kMinUserNameLength, net.kMaxUserNameLength, List.all_eq_true]
  · simp [router.onButtonBoxClicked, h]

/-- C8 witness: the dialog refusal applied at the concrete invalid name
`"alice\x00drop"`. -/
theorem C8_user_name_validation_witness :
    router.onButtonBoxClicked true ['a', 'l', 'i', 'c', 'e', '\x00', 'd', 'r', 'o', 'p']
        ['p'] ['p'] false ≠ .accepted :=
  C8_user_name_validation.2.2 _ _ _ _ (by decide)

end Aspia
